import Mathlib

/-!
Verification of the request/retry/token-refresh core of `trustar/api_client.py`.

Shallow embedding of `ApiClient` (construction, `_get_token`, `_refresh_token`,
`_get_headers`, `_is_expired_token_response`, and the retry loop of `request`).

HTTP responses are modeled by the only data the client inspects: the status
code and the parsed JSON value.  A body that `response.json()` cannot parse is
`none`; a parsed value is an object (with the fields the code reads:
`error_description`, `waitTime`, `message`, `access_token`) or one of the
non-object JSON classes (array, string, number, boolean, null), which behave
differently under the duck-typed inspections the code performs.  The network is an environment giving the response of the n-th
auth-endpoint call and of the n-th resource attempt.  The Python `while` loop is
run on fuel (the source imposes no iteration bound); `Outcome.spin` records that
the given number of iterations did not complete the call.  Observable effects
(resource attempts, auth-endpoint calls, sleeps) are accumulated in a trace.
-/

namespace TruStar

/-- The JSON-body fields that `api_client.py` ever reads from a response. -/
structure JsonBody where
  error_description : Option String := none
  waitTime : Option Nat := none
  message : Option String := none
  access_token : Option String := none
deriving DecidableEq, Repr

/-- A successfully parsed `response.json()` value.  The code reads dict fields
(`obj`, carrying only the fields it inspects), but `json()` also returns
non-object values for valid JSON scalar or array bodies, and those classes
behave differently under `.get`, `[...]` and `in`: of an array only its string
elements matter (`"message" in l` is element membership and non-string elements
never equal "message"), of a JSON string the text matters (`in` is substring
containment), while numbers, booleans and null carry no data the code can
reach. -/
inductive PyJson where
  | obj (b : JsonBody)
  | arr (strElems : List String)
  | str (s : String)
  | num
  | boolean
  | null
deriving DecidableEq, Repr

/-- An HTTP response as the client observes it: status code, and the parsed
JSON value (`none` exactly when `response.json()` raises, i.e. the body is not
valid JSON). -/
structure Response where
  status : Nat
  body : Option PyJson := none
deriving DecidableEq, Repr

/-- Python `needle in hay` on strings: substring occurrence (splitting on the
needle yields more than one part exactly when it occurs). -/
def strContains (hay needle : String) : Bool :=
  (hay.splitOn needle).length != 1

/-- The configuration dictionary passed to `ApiClient.__init__`; every key is
optional because `config.get(key)` returns `None` for a missing key. -/
structure ConfigDict where
  auth : Option String := none
  base : Option String := none
  api_key : Option String := none
  api_secret : Option String := none
  client_type : Option String := none
  client_version : Option String := none
  client_metatag : Option String := none
  verify : Option Bool := none
  retry : Option Bool := none
  max_wait_time : Option Nat := none
deriving DecidableEq, Repr

/-- The `ApiClient` instance state after `__init__` (lines 60-74): the stored
config values plus the mutable `token` property. -/
structure ApiClient where
  auth : Option String
  base : Option String
  api_key : Option String
  api_secret : Option String
  client_type : Option String
  client_version : Option String
  client_metatag : Option String
  verify : Option Bool
  retry : Option Bool
  max_wait_time : Option Nat
  token : Option String
deriving DecidableEq, Repr

/-- Exceptions the embedded code can raise.  In the source both `authError` and
`apiError` are `requests.HTTPError` built from the same format string
`"<status> <category> Error: <reason>"` (lines 102-105 and 222-226); the
constructors keep exactly those components.  `pyError` is any other, raw Python
exception (TypeError, KeyError, JSON decode error) that escapes without being
normalized. -/
inductive ReqError where
  | authError (status : Nat) (reason : String)
  | apiError (status : Nat) (category : String) (reason : String)
  | pyError (msg : String)
deriving DecidableEq, Repr

/-- Embeds `ApiClient.__init__` (lines 60-74).  `config.get` never raises on a dict, so
every `ConfigDict` yields a client with `token = None`; only `config=None`
raises (`None.get` is an AttributeError). -/
def ApiClient.construct (config : Option ConfigDict) : Except ReqError ApiClient :=
  match config with
  | none => .error (.pyError "AttributeError: NoneType has no attribute get")
  | some c =>
      .ok { auth := c.auth, base := c.base, api_key := c.api_key,
            api_secret := c.api_secret, client_type := c.client_type,
            client_version := c.client_version, client_metatag := c.client_metatag,
            verify := c.verify, retry := c.retry, max_wait_time := c.max_wait_time,
            token := none }

/-- Python truthiness of an optional boolean config value (`None` is falsy), as
used by `retry = self.retry; while not attempted or retry`. -/
def truthy : Option Bool → Bool
  | none => false
  | some b => b

/-- Python `str` applied to the result of `body.get('error_description')`:
a missing field is `None`, rendered as the string `"None"`. -/
def pyStr : Option String → String
  | none => "None"
  | some s => s

/-- Embeds `ApiClient._is_expired_token_response` (lines 134-153).  True only for a
status-400 response whose JSON object body's `error_description` stringifies to
one of the two sentinel messages; a non-JSON body (json() raises) and a
non-object body (`.get` raises AttributeError) land in the bare `except` and
give False, and a missing field stringifies to `"None"`, matching neither
sentinel. -/
def isExpiredTokenResponse (r : Response) : Bool :=
  r.status == 400 &&
    (match r.body with
     | some (.obj b) =>
         pyStr b.error_description == "Expired oauth2 access token" ||
         pyStr b.error_description == "Invalid oauth2 access token"
     | _ => false)

/-- Embeds `ApiClient._refresh_token` (lines 86-108), applied to the auth-endpoint
response `r`: the raised exception, or the new token value.  The error is
raised (line 105) before the token assignment (line 108), so on error the
caller's `token` field is untouched; on success `response.json()["access_token"]`
raises when the body is not JSON, is not a JSON object (string subscripts work
only on dicts), or the key is absent. -/
def refreshResult (r : Response) : Except ReqError String :=
  if 400 ≤ r.status ∧ r.status < 600 then
    .error (.authError r.status "unable to get token")
  else
    match r.body with
    | none => .error (.pyError "JSONDecodeError")
    | some (.obj b) =>
        match b.access_token with
        | none => .error (.pyError "KeyError: access_token")
        | some t => .ok t
    | some (.arr _) => .error (.pyError "TypeError: list indices must be integers")
    | some (.str _) => .error (.pyError "TypeError: string indices must be integers")
    | some .num => .error (.pyError "TypeError: int is not subscriptable")
    | some .boolean => .error (.pyError "TypeError: bool is not subscriptable")
    | some .null => .error (.pyError "TypeError: NoneType is not subscriptable")

/-- State-passing form of `_refresh_token`: the exception raised (if any) and
the value of `self.token` after the call. -/
def refreshProc (r : Response) (token : Option String) : Option ReqError × Option String :=
  match refreshResult r with
  | .error e => (some e, token)
  | .ok t => (none, some t)

/-- Embeds `ApiClient._get_token` (lines 76-84), given the auth response `r` that a
refresh would receive: the exception raised (if any), the value returned, and
`self.token` afterwards. -/
def getTokenProc (r : Response) (token : Option String) :
    Option ReqError × Option String × Option String :=
  match token with
  | some t => (none, some t, some t)
  | none =>
      match refreshProc r none with
      | (some e, tok) => (some e, none, tok)
      | (none, tok) => (none, tok, tok)

/-- Embeds `ApiClient._get_headers` (lines 110-132), with the token already obtained
(its `_get_token` call is modeled separately): the headers dict as an
association list built by successive insertions of distinct keys. -/
def getHeaders (cl : ApiClient) (tok : String) (is_json : Bool) :
    List (String × String) :=
  [("Authorization", "Bearer " ++ tok)]
  ++ (match cl.client_type with | some v => [("Client-Type", v)] | none => [])
  ++ (match cl.client_version with | some v => [("Client-Version", v)] | none => [])
  ++ (match cl.client_metatag with | some v => [("Client-Metatag", v)] | none => [])
  ++ (if is_json then [("Content-Type", "application/json")] else [])

/-- Lookup in the dict obtained by `base_headers.update(headers)` (line 173):
a key present in the caller's dict wins, otherwise the base value stands. -/
def updatedLookup (base extra : List (String × String)) (k : String) : Option String :=
  match extra.lookup k with
  | some v => some v
  | none => base.lookup k

/-- The header construction of `request` (lines 170-173): base headers with
`is_json := method in ["POST", "PUT"]`, then the caller-supplied dict merged on
top when present.  Returns the final value of header `k`. -/
def builtHeaders (cl : ApiClient) (tok : String) (method : String)
    (headers : Option (List (String × String))) (k : String) : Option String :=
  let base := getHeaders cl tok (method == "POST" || method == "PUT")
  match headers with
  | none => base.lookup k
  | some h => updatedLookup base h k

/-- Observable effects of one logical `request` call: number of resource
attempts issued, number of auth-endpoint calls made, and the sleep durations
(seconds), in order. -/
structure Trace where
  attempts : Nat := 0
  refreshes : Nat := 0
  sleeps : List Nat := []
deriving DecidableEq, Repr

/-- The network environment: `authResp n` is the response of the n-th call to
the auth endpoint, `resResp n` the response of the n-th resource attempt. -/
structure Env where
  authResp : Nat → Response
  resResp : Nat → Response

/-- The local state of the `while` loop in `request` (lines 166-203): the
client's mutable `token`, the loop-local `retry` and `attempted` flags, the
last response received (unbound before the first attempt), and the trace. -/
structure LoopSt where
  token : Option String
  retry : Bool
  attempted : Bool
  last : Option Response
  trace : Trace
deriving Repr

/-- Result of one execution of the loop body: continue with a new state, or an
exception propagates out of `request`. -/
inductive StepRes where
  | next (st : LoopSt)
  | halt (e : ReqError) (st : LoopSt)
deriving Repr

/-- How a logical call ends: the final response returned or error raised, or
(`spin`) the modeled fuel was exhausted with the loop still running. -/
inductive Outcome where
  | ok (r : Response)
  | err (e : ReqError)
  | spin
deriving DecidableEq, Repr

/-- Result of a logical `request` call: outcome, final token state, trace. -/
structure ReqResult where
  outcome : Outcome
  token : Option String
  trace : Trace
deriving DecidableEq, Repr

/-- Computes `ceil(w / 1000)` for a waitTime of `w` milliseconds (line 192). -/
def ceilDiv1000 (w : Nat) : Nat := (w + 999) / 1000

/-- The token-forcing side of building headers (line 171 calls `_get_headers`,
whose line 118 calls `_get_token`): refresh exactly when no token is cached,
counting the auth-endpoint call in the trace; a refresh failure propagates. -/
def acquireToken (env : Env) (st : LoopSt) : StepRes :=
  match st.token with
  | some _ => .next st
  | none =>
      let ar := env.authResp st.trace.refreshes
      let st' := { st with trace := { st.trace with refreshes := st.trace.refreshes + 1 } }
      match refreshResult ar with
      | .error e => .halt e st'
      | .ok t => .next { st' with token := some t }

/-- One iteration of the `while` loop body of `request` (lines 170-203):
build headers (forcing the token), issue the physical attempt, then dispatch on
the response: expired-token 400 → unconditional refresh (lines 187-188);
`retry` and status 429 → read `waitTime`, ceil to seconds, sleep and go round
if within `max_wait_time`, else clear `retry` (lines 191-199); anything else →
clear `retry` (lines 202-203). -/
def loopBody (env : Env) (cl : ApiClient) (st : LoopSt) : StepRes :=
  match acquireToken env st with
  | .halt e st' => .halt e st'
  | .next st1 =>
      let r := env.resResp st1.trace.attempts
      let st2 : LoopSt :=
        { st1 with attempted := true, last := some r,
                   trace := { st1.trace with attempts := st1.trace.attempts + 1 } }
      if isExpiredTokenResponse r then
        let ar := env.authResp st2.trace.refreshes
        let st3 := { st2 with trace := { st2.trace with refreshes := st2.trace.refreshes + 1 } }
        match refreshResult ar with
        | .error e => .halt e st3
        | .ok t => .next { st3 with token := some t }
      else if st2.retry && (r.status == 429) then
        match r.body with
        | none => .halt (.pyError "JSONDecodeError") st2
        | some (.obj b) =>
            match b.waitTime with
            | none => .halt (.pyError "TypeError: NoneType division") st2
            | some w =>
                let wait := ceilDiv1000 w
                match cl.max_wait_time with
                | none => .halt (.pyError "TypeError: int vs NoneType comparison") st2
                | some m =>
                    if wait ≤ m then
                      .next { st2 with trace := { st2.trace with sleeps := st2.trace.sleeps ++ [wait] } }
                    else
                      .next { st2 with retry := false }
        | some _ => .halt (.pyError "AttributeError: no attribute get") st2
      else
        .next { st2 with retry := false }

/-- The loop guard `not attempted or retry` (line 168). -/
def loopCond (st : LoopSt) : Bool := !st.attempted || st.retry

/-- The reason the epilogue uses in the cases where the line-216 test does not
itself raise: the object body's `message` field when present, else the
fallback `"unknown cause"` (also when the body failed to parse). -/
def errorReason (r : Response) : String :=
  match r.body with
  | some (.obj b) =>
      match b.message with
      | some m => m
      | none => "unknown cause"
  | _ => "unknown cause"

/-- The post-loop error-body inspection (lines 208-219).  A parse failure is
swallowed (`resp_json` stays None and the `is not None` guard at line 216
short-circuits, as it also does for a body parsing to JSON null), but the
`'message' in resp_json` test sits outside the try: on a dict it is key
membership; on a list it is element membership and on a string substring
containment, each followed by a `resp_json['message']` lookup that raises
TypeError when the test succeeds; on a number or boolean the `in` itself
raises TypeError.  Those exceptions escape `request` and mask the HTTP error. -/
def epilogueReason (r : Response) : Except ReqError String :=
  match r.body with
  | none => .ok "unknown cause"
  | some (.obj b) =>
      match b.message with
      | some m => .ok m
      | none => .ok "unknown cause"
  | some .null => .ok "unknown cause"
  | some (.arr es) =>
      if es.contains "message" then
        .error (.pyError "TypeError: list indices must be integers")
      else .ok "unknown cause"
  | some (.str s) =>
      if strContains s "message" then
        .error (.pyError "TypeError: string indices must be integers")
      else .ok "unknown cause"
  | some .num => .error (.pyError "TypeError: argument of type int is not iterable")
  | some .boolean => .error (.pyError "TypeError: argument of type bool is not iterable")

/-- The error category (lines 222-223): `"Client"` below 500, else `"Server"`. -/
def errorCategory (status : Nat) : String :=
  if status < 500 then "Client" else "Server"

/-- The post-loop epilogue of `request` (lines 205-228): when the final status
lies in [400, 600), inspect the body (which may itself raise, masking the HTTP
error) and otherwise raise the normalized error; below 400 (or at 600 and
above) return the response.  `last = none` (loop body never ran) would be
Python's unbound `response`. -/
def finishRequest (st : LoopSt) : ReqResult :=
  match st.last with
  | none => ⟨.err (.pyError "NameError: response"), st.token, st.trace⟩
  | some r =>
      if 400 ≤ r.status ∧ r.status < 600 then
        match epilogueReason r with
        | .error e => ⟨.err e, st.token, st.trace⟩
        | .ok reason =>
            ⟨.err (.apiError r.status (errorCategory r.status) reason),
              st.token, st.trace⟩
      else
        ⟨.ok r, st.token, st.trace⟩

/-- The `while` loop of `request`, bounded by `fuel` iterations. -/
def runLoop (env : Env) (cl : ApiClient) : Nat → LoopSt → ReqResult
  | 0, st => if loopCond st then ⟨.spin, st.token, st.trace⟩ else finishRequest st
  | fuel + 1, st =>
      if loopCond st then
        match loopBody env cl st with
        | .next st' => runLoop env cl fuel st'
        | .halt e st' => ⟨.err e, st'.token, st'.trace⟩
      else finishRequest st

/-- Embeds `ApiClient.request` (lines 155-228): initialize `retry` from the config
(Python truthiness) and `attempted := false`, then run the loop. -/
def request (env : Env) (cl : ApiClient) (fuel : Nat) : ReqResult :=
  runLoop env cl fuel ⟨cl.token, truthy cl.retry, false, none, {}⟩

/-- Termination of a logical call in the fuel model: some iteration bound
suffices for the loop to finish, normally or by an exception. -/
def completes (env : Env) (cl : ApiClient) : Prop :=
  ∃ fuel, (request env cl fuel).outcome ≠ Outcome.spin

/-- The `waitTime` value as line 192 reads it: `none` when the body does not
parse as JSON, does not parse to a JSON object, or lacks the field. -/
def waitTimeField (r : Response) : Option Nat :=
  match r.body with
  | some (.obj b) => b.waitTime
  | _ => none

/-- The raw exception line 192 raises on an unusable 429 body: a JSON decode
error when the body does not parse, a TypeError from dividing `None` when the
object lacks `waitTime`, and an AttributeError when the parsed value is not a
dict (no `.get`). -/
def waitTimeError (r : Response) : ReqError :=
  match r.body with
  | none => .pyError "JSONDecodeError"
  | some (.obj _) => .pyError "TypeError: NoneType division"
  | some _ => .pyError "AttributeError: no attribute get"

/-- The invariant asserted by the spec (section 3): the cached token is either
absent or a non-empty string. -/
def tokenInv : Option String → Prop
  | none => True
  | some s => s ≠ ""

/-- Concrete response: a 400 carrying the expired-token sentinel. -/
def expiredResp : Response :=
  { status := 400,
    body := some (.obj { error_description := some "Expired oauth2 access token" }) }

/-- Concrete response: a plain 200 with no JSON body. -/
def okResp : Response := { status := 200 }

/-- Concrete response: a successful auth-endpoint answer carrying token `tok2`. -/
def authOkResp : Response :=
  { status := 200, body := some (.obj { access_token := some "tok2" }) }

/-- Concrete response: the auth endpoint failing with a 500. -/
def authFailResp : Response := { status := 500 }

/-- Concrete response: a 429 asking for a 5000 ms wait. -/
def resp429small : Response :=
  { status := 429, body := some (.obj { waitTime := some 5000 }) }

/-- Concrete response: a 429 asking for a 20000 ms wait. -/
def resp429big : Response :=
  { status := 429, body := some (.obj { waitTime := some 20000 }) }

/-- Concrete response: a 429 whose JSON body has no `waitTime` field. -/
def resp429noWait : Response := { status := 429, body := some (.obj {}) }

/-- Concrete response: a 404 whose body carries a `message`. -/
def resp404 : Response :=
  { status := 404, body := some (.obj { message := some "not found" }) }

/-- Concrete response: a 500 whose body is the valid JSON number 42 — a
non-object value on which the line-216 membership test raises TypeError. -/
def resp500num : Response := { status := 500, body := some .num }

/-- Concrete client: retry enabled, `max_wait_time` 10 s, token `tok1` cached. -/
def clientRetryOn : ApiClient :=
  { auth := some "auth-url", base := some "api-url", api_key := some "key",
    api_secret := some "secret", client_type := none, client_version := none,
    client_metatag := none, verify := some true, retry := some true,
    max_wait_time := some 10, token := some "tok1" }

/-- Concrete client: as `clientRetryOn` but with retry disabled. -/
def clientRetryOff : ApiClient := { clientRetryOn with retry := some false }

/-- Concrete client: as `clientRetryOn` but with no cached token. -/
def clientNoToken : ApiClient := { clientRetryOn with token := none }

/-- Concrete environment: the first attempt gets the expired-token 400, later
attempts succeed; the auth endpoint always answers `authOkResp`. -/
def envExpiredOnce : Env :=
  { authResp := fun _ => authOkResp,
    resResp := fun n => if n == 0 then expiredResp else okResp }

/-- Concrete adversarial environment: every attempt gets the expired-token 400
while the auth endpoint keeps answering successfully. -/
def envAlwaysExpired : Env :=
  { authResp := fun _ => authOkResp, resResp := fun _ => expiredResp }

/-- Concrete environment: first a 429 with waitTime 5000 ms, then success. -/
def env429small : Env :=
  { authResp := fun _ => authOkResp,
    resResp := fun n => if n == 0 then resp429small else okResp }

/-- Concrete environment: every attempt gets a 429 with waitTime 20000 ms. -/
def env429big : Env :=
  { authResp := fun _ => authOkResp, resResp := fun _ => resp429big }

/-- Concrete environment: every attempt gets a 429 without a `waitTime`. -/
def env429noWait : Env :=
  { authResp := fun _ => authOkResp, resResp := fun _ => resp429noWait }

/-- Concrete environment: every attempt gets the 404 with a message body. -/
def env404 : Env :=
  { authResp := fun _ => authOkResp, resResp := fun _ => resp404 }

/-- Concrete environment: every attempt gets the 500 with the number body. -/
def env500num : Env :=
  { authResp := fun _ => authOkResp, resResp := fun _ => resp500num }

/-- Concrete environment: the auth endpoint fails with 500; resource calls
would succeed (but must never be reached without a token). -/
def envAuthFail : Env :=
  { authResp := fun _ => authFailResp, resResp := fun _ => okResp }

theorem runLoop_exit (env : Env) (cl : ApiClient) (fuel : Nat) (st : LoopSt)
    (h : loopCond st = false) : runLoop env cl fuel st = finishRequest st := by
  cases fuel <;> simp [runLoop, h]

theorem runLoop_succ (env : Env) (cl : ApiClient) (fuel : Nat) (st : LoopSt)
    (h : loopCond st = true) :
    runLoop env cl (fuel + 1) st =
      (match loopBody env cl st with
       | .next st' => runLoop env cl fuel st'
       | .halt e st' => ⟨.err e, st'.token, st'.trace⟩) := by
  simp [runLoop, h]

theorem finishRequest_ne_spin (st : LoopSt) :
    (finishRequest st).outcome ≠ Outcome.spin := by
  unfold finishRequest
  cases st.last with
  | none => simp
  | some r =>
      dsimp only
      split
      · cases hE : epilogueReason r <;> simp
      · simp

theorem isExpired_of_status_ne (r : Response) (h : r.status ≠ 400) :
    isExpiredTokenResponse r = false := by
  unfold isExpiredTokenResponse
  have hb : (r.status == 400) = false := beq_eq_false_iff_ne.mpr h
  simp [hb]

theorem refreshResult_error_of_status (r : Response)
    (h : 400 ≤ r.status ∧ r.status < 600) :
    refreshResult r = .error (.authError r.status "unable to get token") := by
  simp [refreshResult, h]

theorem refreshResult_ok_inv (r : Response) (t : String)
    (h : refreshResult r = .ok t) :
    ∃ b, r.body = some (PyJson.obj b) ∧ b.access_token = some t := by
  unfold refreshResult at h
  split at h
  · exact absurd h (by simp)
  · cases hb : r.body with
    | none => simp [hb] at h
    | some j =>
        cases j with
        | obj b =>
            cases hat : b.access_token with
            | none => simp [hb, hat] at h
            | some s =>
                simp [hb, hat] at h
                exact ⟨b, rfl, by rw [hat, h]⟩
        | arr es => simp [hb] at h
        | str sj => simp [hb] at h
        | num => simp [hb] at h
        | boolean => simp [hb] at h
        | null => simp [hb] at h

theorem epilogueReason_obj (r : Response) (b : JsonBody)
    (hb : r.body = some (PyJson.obj b)) :
    epilogueReason r = .ok (errorReason r) := by
  unfold epilogueReason errorReason
  rw [hb]
  cases hm : b.message <;> simp [hm]

theorem loopBody_cached_expired (env : Env) (cl : ApiClient) (st : LoopSt)
    (t t' : String)
    (htok : st.token = some t)
    (hexp : isExpiredTokenResponse (env.resResp st.trace.attempts) = true)
    (hauth : refreshResult (env.authResp st.trace.refreshes) = .ok t') :
    loopBody env cl st = .next
      { token := some t', retry := st.retry, attempted := true,
        last := some (env.resResp st.trace.attempts),
        trace := { attempts := st.trace.attempts + 1,
                   refreshes := st.trace.refreshes + 1,
                   sleeps := st.trace.sleeps } } := by
  simp [loopBody, acquireToken, htok, hexp, hauth]

theorem loopBody_cached_final (env : Env) (cl : ApiClient) (st : LoopSt)
    (t : String)
    (htok : st.token = some t)
    (hexp : isExpiredTokenResponse (env.resResp st.trace.attempts) = false)
    (h429 : st.retry = false ∨ (env.resResp st.trace.attempts).status ≠ 429) :
    loopBody env cl st = .next
      { token := some t, retry := false, attempted := true,
        last := some (env.resResp st.trace.attempts),
        trace := { attempts := st.trace.attempts + 1,
                   refreshes := st.trace.refreshes,
                   sleeps := st.trace.sleeps } } := by
  have hguard : (st.retry && ((env.resResp st.trace.attempts).status == 429)) = false := by
    rcases h429 with h | h
    · simp [h]
    · simp [beq_eq_false_iff_ne.mpr h]
  simp [loopBody, acquireToken, htok, hexp, hguard]

theorem loopBody_cached_429_sleep (env : Env) (cl : ApiClient) (st : LoopSt)
    (t : String) (bd : JsonBody) (w m : Nat)
    (htok : st.token = some t)
    (hretry : st.retry = true)
    (hs : (env.resResp st.trace.attempts).status = 429)
    (hb : (env.resResp st.trace.attempts).body = some (PyJson.obj bd))
    (hw : bd.waitTime = some w)
    (hmax : cl.max_wait_time = some m)
    (hle : ceilDiv1000 w ≤ m) :
    loopBody env cl st = .next
      { token := some t, retry := true, attempted := true,
        last := some (env.resResp st.trace.attempts),
        trace := { attempts := st.trace.attempts + 1,
                   refreshes := st.trace.refreshes,
                   sleeps := st.trace.sleeps ++ [ceilDiv1000 w] } } := by
  have hexp : isExpiredTokenResponse (env.resResp st.trace.attempts) = false :=
    isExpired_of_status_ne _ (by omega)
  simp [loopBody, acquireToken, htok, hexp, hretry, hs, hb, hw, hmax, hle]

theorem loopBody_cached_429_toolong (env : Env) (cl : ApiClient) (st : LoopSt)
    (t : String) (bd : JsonBody) (w m : Nat)
    (htok : st.token = some t)
    (hretry : st.retry = true)
    (hs : (env.resResp st.trace.attempts).status = 429)
    (hb : (env.resResp st.trace.attempts).body = some (PyJson.obj bd))
    (hw : bd.waitTime = some w)
    (hmax : cl.max_wait_time = some m)
    (hgt : m < ceilDiv1000 w) :
    loopBody env cl st = .next
      { token := some t, retry := false, attempted := true,
        last := some (env.resResp st.trace.attempts),
        trace := { attempts := st.trace.attempts + 1,
                   refreshes := st.trace.refreshes,
                   sleeps := st.trace.sleeps } } := by
  have hexp : isExpiredTokenResponse (env.resResp st.trace.attempts) = false :=
    isExpired_of_status_ne _ (by omega)
  have hnle : ¬ ceilDiv1000 w ≤ m := by omega
  simp [loopBody, acquireToken, htok, hexp, hretry, hs, hb, hw, hmax, hnle]

theorem loopBody_cached_429_malformed (env : Env) (cl : ApiClient) (st : LoopSt)
    (t : String)
    (htok : st.token = some t)
    (hretry : st.retry = true)
    (hs : (env.resResp st.trace.attempts).status = 429)
    (hmal : waitTimeField (env.resResp st.trace.attempts) = none) :
    loopBody env cl st = .halt (waitTimeError (env.resResp st.trace.attempts))
      { token := some t, retry := true, attempted := true,
        last := some (env.resResp st.trace.attempts),
        trace := { attempts := st.trace.attempts + 1,
                   refreshes := st.trace.refreshes,
                   sleeps := st.trace.sleeps } } := by
  have hexp : isExpiredTokenResponse (env.resResp st.trace.attempts) = false :=
    isExpired_of_status_ne _ (by omega)
  unfold waitTimeField at hmal
  cases hb : (env.resResp st.trace.attempts).body with
  | none => simp [loopBody, acquireToken, htok, hexp, hretry, hs, hb, waitTimeError]
  | some j =>
      cases j with
      | obj bd =>
          rw [hb] at hmal
          simp at hmal
          simp [loopBody, acquireToken, htok, hexp, hretry, hs, hb, hmal, waitTimeError]
      | arr es => simp [loopBody, acquireToken, htok, hexp, hretry, hs, hb, waitTimeError]
      | str sj => simp [loopBody, acquireToken, htok, hexp, hretry, hs, hb, waitTimeError]
      | num => simp [loopBody, acquireToken, htok, hexp, hretry, hs, hb, waitTimeError]
      | boolean => simp [loopBody, acquireToken, htok, hexp, hretry, hs, hb, waitTimeError]
      | null => simp [loopBody, acquireToken, htok, hexp, hretry, hs, hb, waitTimeError]

theorem loopBody_acquire_fail (env : Env) (cl : ApiClient) (st : LoopSt)
    (e : ReqError)
    (htok : st.token = none)
    (hauth : refreshResult (env.authResp st.trace.refreshes) = .error e) :
    loopBody env cl st = .halt e
      { token := none, retry := st.retry, attempted := st.attempted,
        last := st.last,
        trace := { attempts := st.trace.attempts,
                   refreshes := st.trace.refreshes + 1,
                   sleeps := st.trace.sleeps } } := by
  simp [loopBody, acquireToken, htok, hauth]

theorem loopBody_next_flags (env : Env) (cl : ApiClient) (st st' : LoopSt)
    (hr : st.retry = false) (h : loopBody env cl st = .next st') :
    st'.retry = false ∧ st'.attempted = true := by
  unfold loopBody acquireToken at h
  cases htok : st.token with
  | some t =>
      rw [htok] at h
      dsimp only at h
      by_cases hexp : isExpiredTokenResponse (env.resResp st.trace.attempts) = true
      · rw [if_pos hexp] at h
        split at h
        · simp at h
        · rw [← StepRes.next.inj h]
          exact ⟨hr, rfl⟩
      · rw [if_neg hexp] at h
        rw [hr] at h
        simp only [Bool.false_and] at h
        rw [if_neg (by simp)] at h
        rw [← StepRes.next.inj h]
        exact ⟨rfl, rfl⟩
  | none =>
      rw [htok] at h
      dsimp only at h
      cases har : refreshResult (env.authResp st.trace.refreshes) with
      | error e => rw [har] at h; simp at h
      | ok t =>
          rw [har] at h
          dsimp only at h
          by_cases hexp : isExpiredTokenResponse (env.resResp st.trace.attempts) = true
          · rw [if_pos hexp] at h
            split at h
            · simp at h
            · rw [← StepRes.next.inj h]
              exact ⟨hr, rfl⟩
          · rw [if_neg hexp] at h
            rw [hr] at h
            simp only [Bool.false_and] at h
            rw [if_neg (by simp)] at h
            rw [← StepRes.next.inj h]
            exact ⟨rfl, rfl⟩

theorem runLoop_alwaysExpired_spin (fuel : Nat) :
    ∀ st : LoopSt, st.retry = true →
      (runLoop envAlwaysExpired clientRetryOn fuel st).outcome = Outcome.spin := by
  induction fuel with
  | zero =>
      intro st h
      simp [runLoop, loopCond, h]
  | succ n ih =>
      intro st h
      rw [runLoop_succ _ _ _ _ (by simp [loopCond, h])]
      cases htok : st.token with
      | some t =>
          rw [loopBody_cached_expired envAlwaysExpired clientRetryOn st t "tok2" htok
                (by rfl) (by rfl)]
          exact ih _ h
      | none =>
          have hb : loopBody envAlwaysExpired clientRetryOn st = .next
              { token := some "tok2", retry := st.retry, attempted := true,
                last := some expiredResp,
                trace := { attempts := st.trace.attempts + 1,
                           refreshes := st.trace.refreshes + 2,
                           sleeps := st.trace.sleeps } } := by
            unfold loopBody acquireToken
            rw [htok]
            dsimp only
            rw [show refreshResult (envAlwaysExpired.authResp st.trace.refreshes) =
                  .ok "tok2" from rfl]
            dsimp only
            rw [if_pos (show isExpiredTokenResponse
                  (envAlwaysExpired.resResp st.trace.attempts) = true from rfl)]
            rw [show refreshResult (envAlwaysExpired.authResp (st.trace.refreshes + 1)) =
                  .ok "tok2" from rfl]
            rfl
          rw [hb]
          exact ih _ h

/-- Claim C1 (corrected), counterexample to the claim as stated: with retry
disabled and the first attempt answered by an expired-token 400, the call
completes after exactly one physical attempt — the token refresh does happen,
but no second attempt is issued and the 400 surfaces as the normalized error.
So the expired-token retry is not unconditional: it is gated by the loop
condition `not attempted or retry`. -/
theorem c1_counterexample :
    request envExpiredOnce clientRetryOff 5 =
      ⟨.err (.apiError 400 "Client" "unknown cause"), some "tok2",
        { attempts := 1, refreshes := 1, sleeps := [] }⟩ := by
  rfl

/-- Claim C1 (amended): when retry is enabled and a physical attempt returns a
400 whose body carries the expired/invalid-token sentinel, exactly one token
refresh occurs and then one further physical attempt is issued; if that attempt
succeeds, no error is surfaced.  (With retry disabled the refresh still occurs
but no second attempt follows; see the counterexample.) -/
theorem c1_amended (env : Env) (cl : ApiClient) (t t' : String) (k : Nat)
    (hretry : truthy cl.retry = true)
    (htok : cl.token = some t)
    (hexp : isExpiredTokenResponse (env.resResp 0) = true)
    (hauth : refreshResult (env.authResp 0) = .ok t')
    (hnext : (env.resResp 1).status < 400) :
    request env cl (k + 2) =
      ⟨.ok (env.resResp 1), some t',
        { attempts := 2, refreshes := 1, sleeps := [] }⟩ := by
  have hexp1 : isExpiredTokenResponse (env.resResp 1) = false :=
    isExpired_of_status_ne _ (by omega)
  have h1 : request env cl (k + 2) =
      runLoop env cl (k + 2) ⟨some t, true, false, none, ⟨0, 0, []⟩⟩ := by
    unfold request
    rw [htok, hretry]
  rw [h1, show k + 2 = (k + 1) + 1 from rfl]
  rw [runLoop_succ _ _ _ _ (by rfl)]
  rw [loopBody_cached_expired env cl _ t t' rfl hexp hauth]
  dsimp only
  rw [runLoop_succ _ _ _ _ (by rfl)]
  rw [loopBody_cached_final env cl _ t' rfl hexp1 (Or.inr (by simp only [Nat.zero_add]; omega))]
  dsimp only
  rw [runLoop_exit _ _ _ _ (by rfl)]
  unfold finishRequest
  dsimp only
  rw [if_neg (by simp only [Nat.zero_add]; omega)]

theorem c1_witness :
    request envExpiredOnce clientRetryOn 2 =
      ⟨.ok okResp, some "tok2", { attempts := 2, refreshes := 1, sleeps := [] }⟩ :=
  c1_amended envExpiredOnce clientRetryOn "tok1" "tok2" 0 rfl rfl rfl rfl (by decide)

/-- Claim C2 (corrected), counterexample to the claim as stated: against an
adversarial server that answers every resource attempt with the expired-token
400 (while the auth endpoint keeps succeeding), a retry-enabled call never
completes — no iteration bound suffices — so the loop does not terminate in
bounded iterations for every configuration and response sequence. -/
theorem c2_counterexample : ¬ completes envAlwaysExpired clientRetryOn := by
  intro hc
  obtain ⟨fuel, hne⟩ := hc
  exact hne (runLoop_alwaysExpired_spin fuel _ rfl)

/-- Claim C2 (amended): when the configured retry flag is falsy, the loop
terminates after its single iteration — every call completes (with a response
or an exception) within one iteration of fuel.  With retry enabled, bounded
termination fails (see the counterexample). -/
theorem c2_amended (env : Env) (cl : ApiClient) (fuel : Nat)
    (hretry : truthy cl.retry = false) (hf : 1 ≤ fuel) :
    (request env cl fuel).outcome ≠ Outcome.spin := by
  obtain ⟨k, rfl⟩ : ∃ k, fuel = k + 1 := ⟨fuel - 1, by omega⟩
  unfold request
  rw [hretry]
  rw [runLoop_succ _ _ _ _ (by simp [loopCond])]
  cases hb : loopBody env cl ⟨cl.token, false, false, none, {}⟩ with
  | halt e st' =>
      show (⟨Outcome.err e, st'.token, st'.trace⟩ : ReqResult).outcome ≠ Outcome.spin
      simp
  | next st' =>
      obtain ⟨h1, h2⟩ := loopBody_next_flags env cl _ st' rfl hb
      show (runLoop env cl k st').outcome ≠ Outcome.spin
      rw [runLoop_exit _ _ _ _ (by simp [loopCond, h1, h2])]
      exact finishRequest_ne_spin st'

theorem c2_witness :
    (request envExpiredOnce clientRetryOff 1).outcome ≠ Outcome.spin :=
  c2_amended envExpiredOnce clientRetryOff 1 rfl (by decide)


/-- Claim C3 (confirmed): with retry enabled, a 429 whose JSON body carries
`waitTime` milliseconds is converted to whole seconds rounding up; when that
value is at most `max_wait_time` the call sleeps exactly that many seconds and
issues another attempt (succeeding silently if the retry succeeds), and when it
exceeds `max_wait_time` the call performs no sleep and terminates with the
normalized error carrying status 429. -/
theorem c3_rate_limit (env : Env) (cl : ApiClient) (t : String) (bd : JsonBody)
    (w m k : Nat)
    (hretry : truthy cl.retry = true)
    (htok : cl.token = some t)
    (hmax : cl.max_wait_time = some m)
    (hs : (env.resResp 0).status = 429)
    (hb : (env.resResp 0).body = some (PyJson.obj bd))
    (hw : bd.waitTime = some w) :
    (ceilDiv1000 w ≤ m → (env.resResp 1).status < 400 →
      request env cl (k + 2) =
        ⟨.ok (env.resResp 1), some t,
          { attempts := 2, refreshes := 0, sleeps := [ceilDiv1000 w] }⟩) ∧
    (m < ceilDiv1000 w →
      request env cl (k + 2) =
        ⟨.err (.apiError 429 "Client" (errorReason (env.resResp 0))), some t,
          { attempts := 1, refreshes := 0, sleeps := [] }⟩) := by
  have h1 : request env cl (k + 2) =
      runLoop env cl (k + 2) ⟨some t, true, false, none, ⟨0, 0, []⟩⟩ := by
    unfold request
    rw [htok, hretry]
  constructor
  · intro hle hnext
    have hexp1 : isExpiredTokenResponse (env.resResp 1) = false :=
      isExpired_of_status_ne _ (by omega)
    rw [h1, show k + 2 = (k + 1) + 1 from rfl]
    rw [runLoop_succ _ _ _ _ (by rfl)]
    rw [loopBody_cached_429_sleep env cl _ t bd w m rfl rfl hs hb hw hmax hle]
    dsimp only
    rw [runLoop_succ _ _ _ _ (by rfl)]
    rw [loopBody_cached_final env cl _ t rfl hexp1
          (Or.inr (by simp only [Nat.zero_add]; omega))]
    dsimp only
    rw [runLoop_exit _ _ _ _ (by rfl)]
    unfold finishRequest
    dsimp only
    rw [if_neg (by simp only [Nat.zero_add]; omega)]
    rfl
  · intro hgt
    rw [h1, show k + 2 = (k + 1) + 1 from rfl]
    rw [runLoop_succ _ _ _ _ (by rfl)]
    rw [loopBody_cached_429_toolong env cl _ t bd w m rfl rfl hs hb hw hmax hgt]
    dsimp only
    rw [runLoop_exit _ _ _ _ (by rfl)]
    unfold finishRequest
    dsimp only
    rw [if_pos (by omega)]
    rw [epilogueReason_obj _ bd hb]
    dsimp only
    rw [hs]
    rfl

theorem c3_witness :
    request env429small clientRetryOn 2 =
      ⟨.ok okResp, some "tok1", { attempts := 2, refreshes := 0, sleeps := [5] }⟩ ∧
    request env429big clientRetryOn 2 =
      ⟨.err (.apiError 429 "Client" "unknown cause"), some "tok1",
        { attempts := 1, refreshes := 0, sleeps := [] }⟩ :=
  ⟨(c3_rate_limit env429small clientRetryOn "tok1" { waitTime := some 5000 } 5000 10 0
      rfl rfl rfl rfl rfl rfl).1 (by decide) (by decide),
   (c3_rate_limit env429big clientRetryOn "tok1" { waitTime := some 20000 } 20000 10 0
      rfl rfl rfl rfl rfl rfl).2 (by decide)⟩

/-- Claim C4 (corrected), counterexample to the claim as stated: a final 500
whose body is the valid JSON number 42 reaches line 216, where
`'message' in resp_json` raises an uncaught TypeError — the call fails with
that raw exception, not with an ApiError, so a malformed (valid-JSON,
non-object) error body does mask the HTTP error. -/
theorem c4_counterexample :
    request env500num clientRetryOn 1 =
      ⟨.err (.pyError "TypeError: argument of type int is not iterable"),
        some "tok1", { attempts := 1, refreshes := 0, sleeps := [] }⟩ ∧
    (∀ (s : Nat) (c m : String),
        ReqError.pyError "TypeError: argument of type int is not iterable" ≠
          ReqError.apiError s c m) := by
  constructor
  · rfl
  · intro s c m
    simp

/-- Claim C4 (amended): for a final response with status in [400, 600) that is
not the expired-token or retriable-rate-limit case, whenever the post-loop
body inspection itself raises no exception the call fails with the normalized
error whose category is Client iff status < 500 and whose reason is the
inspected value; the inspection yields the object body's `message` field when
present and "unknown cause" otherwise — also when the body does not parse at
all, so an unparseable body never masks the HTTP error.  But when the body
parses to a JSON value on which the line-216 membership test or the following
lookup raises (a number or boolean, a list containing "message", a string
containing "message"), the raw exception escapes instead of the normalized
error (see the counterexample). -/
theorem c4_amended (env : Env) (cl : ApiClient) (t : String) (k : Nat)
    (htok : cl.token = some t)
    (hs4 : 400 ≤ (env.resResp 0).status)
    (hs6 : (env.resResp 0).status < 600)
    (hexp : isExpiredTokenResponse (env.resResp 0) = false)
    (h429 : (env.resResp 0).status ≠ 429 ∨ truthy cl.retry = false) :
    (∀ reason : String, epilogueReason (env.resResp 0) = .ok reason →
       request env cl (k + 1) =
         ⟨.err (.apiError (env.resResp 0).status
             (if (env.resResp 0).status < 500 then "Client" else "Server") reason),
           some t, { attempts := 1, refreshes := 0, sleeps := [] }⟩) ∧
    (∀ e : ReqError, epilogueReason (env.resResp 0) = .error e →
       request env cl (k + 1) =
         ⟨.err e, some t, { attempts := 1, refreshes := 0, sleeps := [] }⟩) ∧
    (∀ r : Response, r.body = none → epilogueReason r = .ok "unknown cause") ∧
    (∀ (r : Response) (b : JsonBody) (msg : String),
        r.body = some (.obj b) → b.message = some msg →
        epilogueReason r = .ok msg) ∧
    (∀ (r : Response) (b : JsonBody),
        r.body = some (.obj b) → b.message = none →
        epilogueReason r = .ok "unknown cause") := by
  have hor : (⟨some t, truthy cl.retry, false, none, ⟨0, 0, []⟩⟩ : LoopSt).retry = false ∨
      (env.resResp (⟨some t, truthy cl.retry, false, none,
        ⟨0, 0, []⟩⟩ : LoopSt).trace.attempts).status ≠ 429 := by
    rcases h429 with h | h
    · exact Or.inr h
    · exact Or.inl h
  have hfin : request env cl (k + 1) =
      finishRequest ⟨some t, false, true, some (env.resResp 0), ⟨1, 0, []⟩⟩ := by
    have h1 : request env cl (k + 1) =
        runLoop env cl (k + 1) ⟨some t, truthy cl.retry, false, none, ⟨0, 0, []⟩⟩ := by
      unfold request
      rw [htok]
    rw [h1]
    rw [runLoop_succ _ _ _ _ (by simp [loopCond])]
    rw [loopBody_cached_final env cl _ t rfl hexp hor]
    dsimp only
    rw [runLoop_exit _ _ _ _ (by rfl)]
  refine ⟨?_, ?_, ?_, ?_, ?_⟩
  · intro reason hE
    rw [hfin]
    unfold finishRequest
    dsimp only
    rw [if_pos (by omega)]
    rw [hE]
    rfl
  · intro e hE
    rw [hfin]
    unfold finishRequest
    dsimp only
    rw [if_pos (by omega)]
    rw [hE]
  · intro r hr
    simp [epilogueReason, hr]
  · intro r b msg hb hm
    simp [epilogueReason, hb, hm]
  · intro r b hb hm
    simp [epilogueReason, hb, hm]

theorem c4_witness :
    request env404 clientRetryOn 1 =
      ⟨.err (.apiError 404 "Client" "not found"), some "tok1",
        { attempts := 1, refreshes := 0, sleeps := [] }⟩ :=
  (c4_amended env404 clientRetryOn "tok1" 0 rfl (by decide) (by decide) (by decide)
      (Or.inl (by decide))).1 "not found" rfl

/-- Claim C5 (confirmed): a logical call with no cached token acquires the
token before any physical attempt — when the auth endpoint answers with an
error status, the call fails with the auth error ("unable to get token") after
exactly one auth-endpoint call and zero resource attempts. -/
theorem c5_token_before_request (env : Env) (cl : ApiClient) (k : Nat)
    (htok : cl.token = none)
    (hfail : 400 ≤ (env.authResp 0).status ∧ (env.authResp 0).status < 600) :
    request env cl (k + 1) =
      ⟨.err (.authError (env.authResp 0).status "unable to get token"), none,
        { attempts := 0, refreshes := 1, sleeps := [] }⟩ := by
  have h1 : request env cl (k + 1) =
      runLoop env cl (k + 1) ⟨none, truthy cl.retry, false, none, ⟨0, 0, []⟩⟩ := by
    unfold request
    rw [htok]
  rw [h1]
  rw [runLoop_succ _ _ _ _ (by simp [loopCond])]
  rw [loopBody_acquire_fail env cl _ _ rfl (refreshResult_error_of_status _ hfail)]

theorem c5_witness :
    request envAuthFail clientNoToken 1 =
      ⟨.err (.authError 500 "unable to get token"), none,
        { attempts := 0, refreshes := 1, sleeps := [] }⟩ :=
  c5_token_before_request envAuthFail clientNoToken 0 rfl (by decide)


/-- Claim C6 (confirmed): `_refresh_token` fails with the auth error carrying
the response status and the fixed message "unable to get token" exactly when
the auth response status lies in [400, 600), leaving the cached token
unchanged in that case; on any other status it parses the body's
`access_token` field and stores it as the current token, fully overwriting any
prior value. -/
theorem c6_refresh_contract (r : Response) (tok : Option String) :
    ((refreshProc r tok).1 = some (ReqError.authError r.status "unable to get token") ↔
       (400 ≤ r.status ∧ r.status < 600)) ∧
    ((400 ≤ r.status ∧ r.status < 600) → (refreshProc r tok).2 = tok) ∧
    (∀ (b : JsonBody) (t : String), ¬(400 ≤ r.status ∧ r.status < 600) →
       r.body = some (PyJson.obj b) → b.access_token = some t →
       refreshProc r tok = (none, some t)) := by
  refine ⟨⟨?_, ?_⟩, ?_, ?_⟩
  · intro h
    by_cases hs : 400 ≤ r.status ∧ r.status < 600
    · exact hs
    · exfalso
      cases hb : r.body with
      | none => simp [refreshProc, refreshResult, hs, hb] at h
      | some j =>
          cases j with
          | obj b =>
              cases hat : b.access_token with
              | none => simp [refreshProc, refreshResult, hs, hb, hat] at h
              | some s => simp [refreshProc, refreshResult, hs, hb, hat] at h
          | arr es => simp [refreshProc, refreshResult, hs, hb] at h
          | str sj => simp [refreshProc, refreshResult, hs, hb] at h
          | num => simp [refreshProc, refreshResult, hs, hb] at h
          | boolean => simp [refreshProc, refreshResult, hs, hb] at h
          | null => simp [refreshProc, refreshResult, hs, hb] at h
  · intro hs
    simp [refreshProc, refreshResult, hs]
  · intro hs
    simp [refreshProc, refreshResult, hs]
  · intro b t hs hb hat
    simp [refreshProc, refreshResult, hs, hb, hat]

theorem c6_witness :
    (refreshProc ⟨500, none⟩ (some "old")).2 = some "old" ∧
    refreshProc ⟨200, some (.obj { access_token := some "t2" })⟩ (some "old") =
      (none, some "t2") :=
  ⟨(c6_refresh_contract ⟨500, none⟩ (some "old")).2.1 (by decide),
   (c6_refresh_contract ⟨200, some (.obj { access_token := some "t2" })⟩
      (some "old")).2.2 { access_token := some "t2" } "t2" (by decide) rfl rfl⟩

/-- Claim C7 (corrected), counterexample to the claim as stated: when the auth
endpoint answers a success status whose body carries an `access_token` equal
to the empty string, `_refresh_token` succeeds and stores the empty string —
the cached token is then neither absent nor a non-empty string — and
`_get_token` returns the empty string on success. -/
theorem c7_counterexample :
    refreshProc ⟨200, some (.obj { access_token := some "" })⟩ (some "old") =
      (none, some "") ∧
    getTokenProc ⟨200, some (.obj { access_token := some "" })⟩ none =
      (none, some "", some "") ∧
    ¬ tokenInv (some "") := by
  refine ⟨rfl, rfl, ?_⟩
  simp [tokenInv]

/-- Claim C7 (amended): the token invariant (absent or non-empty) is preserved
by `_refresh_token`, and `_get_token` never returns an empty value on success,
PROVIDED every `access_token` the auth endpoint returns is non-empty; the code
stores whatever string the server sends, so the unconditional claim fails (see
the counterexample). -/
theorem c7_amended (r : Response) (tok : Option String)
    (hsrv : ∀ (b : JsonBody) (s : String),
        r.body = some (PyJson.obj b) → b.access_token = some s → s ≠ "")
    (hinv : tokenInv tok) :
    tokenInv (refreshProc r tok).2 ∧
    (∀ (t : String) (tokF : Option String),
        getTokenProc r tok = (none, some t, tokF) → t ≠ "" ∧ tokenInv tokF) := by
  have key : ∀ u : String, refreshResult r = .ok u → u ≠ "" := by
    intro u hu
    obtain ⟨b, hb, hat⟩ := refreshResult_ok_inv r u hu
    exact hsrv b u hb hat
  constructor
  · unfold refreshProc
    cases hres : refreshResult r with
    | error e => exact hinv
    | ok u => exact key u hres
  · intro t tokF hEq
    unfold getTokenProc at hEq
    cases htok : tok with
    | some s =>
        rw [htok] at hEq
        rw [htok] at hinv
        simp only [Prod.mk.injEq, Option.some.injEq] at hEq
        obtain ⟨-, h2, h3⟩ := hEq
        subst h2
        rw [← h3]
        exact ⟨hinv, hinv⟩
    | none =>
        rw [htok] at hEq
        unfold refreshProc at hEq
        cases hres : refreshResult r with
        | error e => rw [hres] at hEq; simp at hEq
        | ok u =>
            rw [hres] at hEq
            simp only [Prod.mk.injEq, Option.some.injEq] at hEq
            obtain ⟨-, h2, h3⟩ := hEq
            subst h2
            rw [← h3]
            exact ⟨key u hres, key u hres⟩

theorem c7_witness :
    tokenInv (refreshProc authOkResp none).2 ∧
    (∀ (t : String) (tokF : Option String),
        getTokenProc authOkResp none = (none, some t, tokF) →
        t ≠ "" ∧ tokenInv tokF) :=
  c7_amended authOkResp none
    (by intro b s hb hs
        rw [show authOkResp.body = some (PyJson.obj { access_token := some "tok2" })
              from rfl] at hb
        injection hb with hb2
        injection hb2 with hb3
        subst hb3
        injection hs with hs2
        subst hs2
        decide)
    trivial

/-- Claim C8 (corrected), counterexample to the claim as stated: constructing
the client from a configuration dictionary missing every field — credentials
and endpoints included — succeeds; nothing fails at construction time. -/
theorem c8_counterexample :
    ApiClient.construct (some {}) =
      .ok { auth := none, base := none, api_key := none, api_secret := none,
            client_type := none, client_version := none, client_metatag := none,
            verify := none, retry := none, max_wait_time := none,
            token := none } := by
  rfl

/-- Claim C8 (amended): `__init__` performs no structural validation — for
every configuration dictionary, construction succeeds and stores exactly the
`get`-ed values (missing keys as `None`) with an uninitialized token; missing
credentials or endpoints surface only at first use, not at construction. -/
theorem c8_amended (c : ConfigDict) :
    ApiClient.construct (some c) =
      .ok { auth := c.auth, base := c.base, api_key := c.api_key,
            api_secret := c.api_secret, client_type := c.client_type,
            client_version := c.client_version, client_metatag := c.client_metatag,
            verify := c.verify, retry := c.retry,
            max_wait_time := c.max_wait_time, token := none } := rfl

theorem getHeaders_content_type (cl : ApiClient) (tok : String) (is_json : Bool) :
    (getHeaders cl tok is_json).lookup "Content-Type" =
      if is_json then some "application/json" else none := by
  unfold getHeaders
  cases cl.client_type <;> cases cl.client_version <;> cases cl.client_metatag <;>
    cases is_json <;> rfl

/-- Claim C9 (confirmed): the Content-Type application/json header is added
exactly when the method is POST or PUT — never for GET or DELETE — and
caller-supplied headers are merged on top of the base headers, so a
caller-supplied value for any header key overrides the automatic one. -/
theorem c9_content_type (cl : ApiClient) (tok : String) (method : String)
    (caller : List (String × String)) :
    (builtHeaders cl tok method none "Content-Type" =
       if method == "POST" || method == "PUT" then some "application/json" else none) ∧
    (caller.lookup "Content-Type" = none →
       builtHeaders cl tok method (some caller) "Content-Type" =
         if method == "POST" || method == "PUT" then some "application/json" else none) ∧
    (∀ (k v : String), caller.lookup k = some v →
       builtHeaders cl tok method (some caller) k = some v) := by
  refine ⟨?_, ?_, ?_⟩
  · unfold builtHeaders
    exact getHeaders_content_type cl tok _
  · intro h
    unfold builtHeaders updatedLookup
    dsimp only
    rw [h]
    exact getHeaders_content_type cl tok _
  · intro k v h
    unfold builtHeaders updatedLookup
    dsimp only
    rw [h]

theorem c9_witness :
    builtHeaders clientRetryOn "t" "POST" none "Content-Type" =
      some "application/json" ∧
    builtHeaders clientRetryOn "t" "GET" none "Content-Type" = none ∧
    builtHeaders clientRetryOn "t" "GET" (some [("Content-Type", "text/xml")])
      "Content-Type" = some "text/xml" :=
  ⟨(c9_content_type clientRetryOn "t" "POST" []).1,
   (c9_content_type clientRetryOn "t" "GET" []).1,
   (c9_content_type clientRetryOn "t" "GET" [("Content-Type", "text/xml")]).2.2
     "Content-Type" "text/xml" rfl⟩

/-- Claim C10 (confirmed): with retry enabled, a 429 attempt whose body is not
JSON, is not a JSON object, or lacks a `waitTime` field makes `request` fail
with the raw, unnormalized exception raised by the wait-time computation —
never with the normalized `apiError` — so the tolerance for malformed error
bodies does not extend to the rate-limit branch. -/
theorem c10_unnormalized_rate_limit (env : Env) (cl : ApiClient) (t : String)
    (k : Nat)
    (hretry : truthy cl.retry = true)
    (htok : cl.token = some t)
    (hs : (env.resResp 0).status = 429)
    (hmal : waitTimeField (env.resResp 0) = none) :
    request env cl (k + 1) =
      ⟨.err (waitTimeError (env.resResp 0)), some t,
        { attempts := 1, refreshes := 0, sleeps := [] }⟩ ∧
    (∀ (s : Nat) (c reason : String),
        waitTimeError (env.resResp 0) ≠ .apiError s c reason) := by
  constructor
  · have h1 : request env cl (k + 1) =
        runLoop env cl (k + 1) ⟨some t, true, false, none, ⟨0, 0, []⟩⟩ := by
      unfold request
      rw [htok, hretry]
    rw [h1]
    rw [runLoop_succ _ _ _ _ (by rfl)]
    rw [loopBody_cached_429_malformed env cl _ t rfl rfl hs hmal]
  · intro s c reason
    unfold waitTimeError
    cases hbody : (env.resResp 0).body with
    | none => simp
    | some j => cases j <;> simp

theorem c10_witness :
    request env429noWait clientRetryOn 1 =
      ⟨.err (.pyError "TypeError: NoneType division"), some "tok1",
        { attempts := 1, refreshes := 0, sleeps := [] }⟩ :=
  (c10_unnormalized_rate_limit env429noWait clientRetryOn "tok1" 0 rfl rfl rfl rfl).1

end TruStar
